/-
Verification development for the dynamic-maps monitoring subsystem
(upstream aggregation, query-result cache, timeseries endpoint, CSV ingestion).

The Lean definitions below are a shallow embedding of the Python source:
  * monitoring/models.py          — data model (Basin, BasinRelation, DataType, Observation)
  * monitoring/api/views.py       — BasinViewSet.upstream_aggregate (BFS + cache + sums)
  * monitoring/cache_utils.py     — cache key codec and invalidation helpers
  * monitoring/views.py           — timeseries_api (window filter, resolution, 413 guard)
  * monitoring/management/commands/ingest_observations.py — CSV ingestion loop

Machine integers are modeled by Nat/Int, Python Decimal values by scaled Int,
datetimes by epoch seconds (Int), exceptions by Except, and external library
calls (dateutil, cache backend, SHA-1 from hashlib) by explicit oracle
parameters.  Each definition mirrors the corresponding source function; the
doc comments name the file and lines it embeds.
-/
import Mathlib

namespace DynamicMaps

/-! ## Data model (monitoring/models.py) -/

/-- monitoring/models.py `Basin`: Django pk `id` plus external string
identifier `basin_id`. -/
structure Basin where
  id : Nat
  basin_id : String
  deriving DecidableEq

/-- monitoring/models.py `DataType`: pk plus (unique) name. -/
structure DataType where
  id : Nat
  name : String
  deriving DecidableEq

/-- monitoring/models.py `BasinRelation`: directed typed edge between basin
pks.  The `weight` column is unused by every code path modeled here and is
omitted. -/
structure BasinRelation where
  from_basin_id : Nat
  to_basin_id : Nat
  relation_type : String
  deriving DecidableEq

/-- monitoring/models.py `Observation`: FK pks, timestamp (epoch seconds) and
a fixed-point decimal value modeled as a scaled integer. -/
structure Observation where
  basin_id : Nat
  data_type_id : Nat
  datetime : Int
  value : Int
  deriving DecidableEq

/-- The relational store the endpoints query. -/
structure Db where
  basins : List Basin
  relations : List BasinRelation
  dataTypes : List DataType
  observations : List Observation

/-! ## String primitives

Character-list implementations of the Python string operations the source
uses (`lower`, `strip`, `startswith`/`endswith`, slicing, `replace`,
`split`, `str(int)`), written so that concrete instances reduce inside the
kernel. -/

/-- Python `s.lower()`. -/
def strLower (s : String) : String := String.mk (s.data.map Char.toLower)

/-- Python `s.strip()`. -/
def strTrim (s : String) : String :=
  String.mk (((s.data.dropWhile Char.isWhitespace).reverse.dropWhile
    Char.isWhitespace).reverse)

/-- Python `s.startswith(p)`. -/
def strStartsWith (s p : String) : Bool := p.data.isPrefixOf s.data

/-- Python `s.endswith(p)`. -/
def strEndsWith (s p : String) : Bool := p.data.reverse.isPrefixOf s.data.reverse

/-- Python `s[:-n]`. -/
def strDropRight (s : String) (n : Nat) : String :=
  String.mk (s.data.take (s.data.length - n))

/-- Python `s[1:]`. -/
def strDropLeft (s : String) (n : Nat) : String := String.mk (s.data.drop n)

/-- Python `s[:n]`. -/
def strTake (s : String) (n : Nat) : String := String.mk (s.data.take n)

/-- Single-character `s.replace(a, b)`. -/
def strReplaceChar (s : String) (a b : Char) : String :=
  String.mk (s.data.map (fun c => if c = a then b else c))

/-- `s.split(stop)[0]`: the prefix before the first occurrence of `stop`. -/
def strTakeUntil (s : String) (stop : Char) : String :=
  String.mk (s.data.takeWhile (fun c => c ≠ stop))

/-- Decimal digit for `n ≤ 9`. -/
def digitChar (n : Nat) : Char :=
  if n = 0 then '0' else if n = 1 then '1' else if n = 2 then '2'
  else if n = 3 then '3' else if n = 4 then '4' else if n = 5 then '5'
  else if n = 6 then '6' else if n = 7 then '7' else if n = 8 then '8' else '9'

/-- Decimal digits of `n`, most significant first (`fuel ≥ n + 1`). -/
def natDigitsAux : Nat → Nat → List Char
  | 0, _ => []
  | fuel + 1, n =>
    if n < 10 then [digitChar n]
    else natDigitsAux fuel (n / 10) ++ [digitChar (n % 10)]

/-- Python `str(n)` for a natural number. -/
def strOfNat (n : Nat) : String := String.mk (natDigitsAux (n + 1) n)

/-- Python `str(i)` for an integer. -/
def strOfInt : Int → String
  | .ofNat n => strOfNat n
  | .negSucc m => "-" ++ strOfNat (m + 1)

/-- Numeric value of a digit run. -/
def digitsToNat (l : List Char) : Nat :=
  l.foldl (fun a c => a * 10 + (c.toNat - 48)) 0

/-! ## Python `int()` (used by `int(window...)` and `int(depth)`) -/

/-- Digit run accepted by Python `int()`: digits with single interior
underscores (`1_000` is valid, `_1`, `1_`, `1__0` are not). -/
def pyDigitsOk : List Char → Bool
  | [] => false
  | [c] => c.isDigit
  | c :: '_' :: rest => c.isDigit && pyDigitsOk rest
  | c :: d :: rest => c.isDigit && pyDigitsOk (d :: rest)

/-- Python `int(s)` for base 10: optional surrounding whitespace, optional
sign, digit run; `none` models the `ValueError`. -/
def pyInt (s : String) : Option Int :=
  let t := strTrim s
  let core : List Char × Int :=
    if strStartsWith t "-" then (t.data.drop 1, -1)
    else if strStartsWith t "+" then (t.data.drop 1, 1)
    else (t.data, 1)
  if pyDigitsOk core.1 then
    some (core.2 * (digitsToNat (core.1.filter Char.isDigit) : Int))
  else none

/-! ## Cache key codec (monitoring/cache_utils.py lines 15-38) -/

/-- cache_utils.py `_normalize_iso` (lines 15-19): falsy input collapses to
`"auto"`; otherwise interior spaces become `T` and everything from the first
`.` on is dropped. -/
def normalize_iso (s : Option String) : String :=
  match s with
  | none => "auto"
  | some t =>
    if t = "" then "auto"
    else strTakeUntil (strReplaceChar t ' ' 'T') '.'

/-- The composed (pre-bounding) timeseries key of cache_utils.py line 30. -/
def timeseries_composed (basin_id data_type : String) (start_iso end_iso : Option String)
    (resolution : String) : String :=
  "timeseries:" ++ basin_id ++ ":" ++ data_type ++ ":" ++ resolution ++ ":"
    ++ normalize_iso start_iso ++ ":" ++ normalize_iso end_iso

/-- cache_utils.py `timeseries_key` (lines 21-35).  `sha1hex` is the oracle
for `hashlib.sha1(key.encode()).hexdigest()`; the code keeps its first 16
characters when the composed key exceeds 200 characters. -/
def timeseries_key (sha1hex : String → String) (basin_id data_type : String)
    (start_iso end_iso : Option String) (resolution : String) : String :=
  let key := timeseries_composed basin_id data_type start_iso end_iso resolution
  if 200 < key.length then "timeseries:hash:" ++ strTake (sha1hex key) 16
  else key

/-- cache_utils.py `upstream_key` (lines 37-38): a plain f-string with no
length check of any kind. -/
def upstream_key (basin_id data_type window : String) (depth : Int) : String :=
  "upstream_agg:" ++ basin_id ++ ":" ++ data_type ++ ":" ++ window ++ ":d" ++ strOfInt depth

/-! ## BFS of BasinViewSet.upstream_aggregate (api/views.py lines 102-121) -/

/-- `BasinRelation.objects.filter(to_basin_id=cur_id)` mapped to
`from_basin_id` (api/views.py lines 116-118). -/
def relationsInto (rels : List BasinRelation) (cur : Nat) : List Nat :=
  (rels.filter (fun r => r.to_basin_id == cur)).map (fun r => r.from_basin_id)

/-- One pass of the inner `for rel in relations` loop (api/views.py lines
117-121): each unvisited `from_basin_id` is added to `visited` and enqueued
at depth `d+1`. -/
def enqueueFold (d : Nat) (visited : List Nat) (queue : List (Nat × Nat))
    (nbrs : List Nat) : List Nat × List (Nat × Nat) :=
  nbrs.foldl
    (fun acc nid =>
      if nid ∈ acc.1 then acc else (acc.1 ++ [nid], acc.2 ++ [(nid, d + 1)]))
    (visited, queue)

/-- `if cur_depth >= 1: upstream_ids.add(cur_id)` (api/views.py lines
112-113), on the list model of the Python set. -/
def upsAdd (d cur : Nat) (ups : List Nat) : List Nat :=
  if 1 ≤ d then (if cur ∈ ups then ups else ups ++ [cur]) else ups

/-- The `while queue` loop of api/views.py lines 110-121, fueled.  A queue
entry is `(basin pk, cur_depth)`.  Mirrors the source exactly: the node is
added to `upstream_ids` whenever `cur_depth >= 1`, and expansion is skipped
exactly when `depth and cur_depth >= depth` — the Python truthiness test, so
`depth = 0` never skips.  Returns `(upstream_ids, trace of dequeued nodes)`,
or `none` on fuel exhaustion. -/
def bfsAux (rels : List BasinRelation) (depth : Int) :
    Nat → List (Nat × Nat) → List Nat → List Nat → List Nat →
    Option (List Nat × List Nat)
  | _, [], _, ups, trace => some (ups, trace)
  | 0, _ :: _, _, _, _ => none
  | fuel + 1, (cur, d) :: rest, visited, ups, trace =>
    if depth ≠ 0 ∧ depth ≤ (d : Int) then
      bfsAux rels depth fuel rest visited (upsAdd d cur ups) (trace ++ [cur])
    else
      bfsAux rels depth fuel
        (enqueueFold d visited rest (relationsInto rels cur)).2
        (enqueueFold d visited rest (relationsInto rels cur)).1
        (upsAdd d cur ups) (trace ++ [cur])

/-- All `from_basin_id` endpoints of the relation table — every node the BFS
can ever enqueue after the root. -/
def fromIds (rels : List BasinRelation) : List Nat :=
  rels.map (fun r => r.from_basin_id)

/-- Number of potential enqueue targets not yet visited: the termination
measure of the BFS together with the queue length. -/
def countFresh (rels : List BasinRelation) (visited : List Nat) : Nat :=
  ((fromIds rels).toFinset \ visited.toFinset).card

/-- Fuel that provably suffices for `bfsAux` (one dequeue per enqueue, and at
most one enqueue per relation plus the root). -/
def bfsFuel (rels : List BasinRelation) : Nat := rels.length + 2

/-- The complete BFS of api/views.py lines 102-121: seeded with the root at
depth 0, root pre-visited. -/
def upstreamBFS (rels : List BasinRelation) (rootId : Nat) (depth : Int) : List Nat :=
  match bfsAux rels depth (bfsFuel rels) [(rootId, 0)] [rootId] [] [] with
  | some (ups, _) => ups
  | none => []

/-! ## upstream_aggregate endpoint (api/views.py lines 64-152) -/

/-- The JSON payload assembled at api/views.py lines 137-144. -/
structure UpPayload where
  basin_id : String
  data_type : String
  window_hours : Int
  basin_total : String
  upstream_total : String
  upstream_count : Nat
  deriving DecidableEq

/-- A DRF `Response`: either a payload response or a `{"detail": …}` error. -/
inductive UpResponse where
  | payload (status : Nat) (p : UpPayload)
  | detail (status : Nat) (msg : String)
  deriving DecidableEq

/-- Python exceptions that escape `upstream_aggregate` uncaught. -/
inductive PyExc where
  /-- `int()` on an unparseable depth parameter (api/views.py line 73). -/
  | valueError
  /-- an exception raised by `cache.get` inside `get_upstream_cache`;
  nothing in the view catches it. -/
  | cacheBackend
  /-- `NameError`: the `except` handler at api/views.py lines 149-150 refers
  to `logger`, which is never defined or imported in that module. -/
  | nameError
  deriving DecidableEq

/-- Environment of one request: the database, the clock, and the Result
Cache backend (whose calls can raise, modeled by `Except Unit`). -/
structure ApiEnv where
  db : Db
  now : Int
  cacheGet : String → Except Unit (Option UpPayload)
  cacheSet : String → UpPayload → Except Unit Unit

/-- `Observation.objects.filter(basin_id__in=…, data_type=…, datetime__gte=cutoff)`
aggregated with `Sum("value")`, with `or Decimal("0")` collapsing the empty
case (api/views.py lines 123-135). -/
def obsSum (obs : List Observation) (basinPks : List Nat) (dtId : Nat) (cutoff : Int) : Int :=
  ((obs.filter (fun o =>
      decide (o.basin_id ∈ basinPks) && o.data_type_id == dtId
        && decide (cutoff ≤ o.datetime))).map (fun o => o.value)).sum

/-- `DataType.objects.get(name__iexact=name)` (first match). -/
def findDataType (dts : List DataType) (name : String) : Option DataType :=
  dts.find? (fun d => strLower d.name == strLower name)

/-- BasinViewSet.upstream_aggregate, api/views.py lines 64-152, line by line:
1. `depth = int(request.query_params.get("depth", 1))` — unguarded, so an
   unparseable depth raises ValueError before anything else;
2. missing/empty `data_type` → 400;
3. cache get (uncaught — a backend error propagates);
4. cache hit → the cached payload with status 200, nothing else runs;
5. window parse (`Nh` or `N`) → 400 `"invalid window format"` on failure;
6. data type lookup → 400 `"data_type not found"` on failure;
7. BFS, sums, payload assembly;
8. cache set inside `try/except` whose handler calls the undefined name
   `logger`, so a set failure raises NameError instead of being logged. -/
def upstream_aggregate (env : ApiEnv) (basin : Basin)
    (dataTypeParam windowParam depthParam : Option String) :
    Except PyExc UpResponse :=
  let window := windowParam.getD "24h"
  match (match depthParam with
         | none => some (1 : Int)
         | some s => pyInt s) with
  | none => .error .valueError
  | some depth =>
    let dtn := dataTypeParam.getD ""
    if dtn = "" then .ok (.detail 400 "data_type query param is required")
    else
      match env.cacheGet (upstream_key basin.basin_id dtn window depth) with
      | .error _ => .error .cacheBackend
      | .ok (some cached) => .ok (.payload 200 cached)
      | .ok none =>
        match (if strEndsWith window "h" then pyInt (strDropRight window 1)
               else pyInt window) with
        | none => .ok (.detail 400 "invalid window format")
        | some hours =>
          let cutoff := env.now - hours * 3600
          match findDataType env.db.dataTypes dtn with
          | none => .ok (.detail 400 "data_type not found")
          | some dt =>
            let ups := upstreamBFS env.db.relations basin.id depth
            let basin_sum := obsSum env.db.observations [basin.id] dt.id cutoff
            let upstream_sum :=
              if ups.isEmpty then (0 : Int)
              else obsSum env.db.observations ups dt.id cutoff
            let payload : UpPayload :=
              { basin_id := basin.basin_id
                data_type := dt.name
                window_hours := hours
                basin_total := strOfInt basin_sum
                upstream_total := strOfInt upstream_sum
                upstream_count := ups.length }
            match env.cacheSet (upstream_key basin.basin_id dtn window depth) payload with
            | .ok _ => .ok (.payload 200 payload)
            | .error _ => .error .nameError

/-! ## timeseries_api (monitoring/views.py lines 68-214) -/

/-- Python `needle in hay` for strings. -/
def strContainsAux (needle : List Char) : List Char → Bool
  | [] => needle.isEmpty
  | c :: rest => needle.isPrefixOf (c :: rest) || strContainsAux needle rest

/-- Python `needle in hay` for strings. -/
def strContains (hay needle : String) : Bool :=
  strContainsAux needle.data hay.data

/-- Environment of one timeseries request: the database, the clock, the
tunables of monitoring/views.py lines 22-24 (`DASHBOARD_AGG_HOURLY_THRESHOLD`,
default 2000, and `DASHBOARD_MAX_RAW_POINTS`, default 5000), and an oracle
for `parse_datetime_local` plus `make_aware` returning epoch seconds. -/
structure TsEnv where
  db : Db
  now : Int
  hourlyThreshold : Nat
  maxRawPoints : Nat
  parseDt : String → Option Int

/-- Window resolution of monitoring/views.py lines 94-110: absent or falsy
`start`/`end`, or a parse failure on either, falls back to the trailing
24-hour window `[now - 24h, now]`. -/
def windowBounds (env : TsEnv) (startRaw endRaw : Option String) : Int × Int :=
  match startRaw, endRaw with
  | some sr, some er =>
    if sr = "" ∨ er = "" then (env.now - 24 * 3600, env.now)
    else
      match env.parseDt sr, env.parseDt er with
      | some sp, some ep => (sp, ep)
      | _, _ => (env.now - 24 * 3600, env.now)
  | _, _ => (env.now - 24 * 3600, env.now)

/-- The `base_qs` filter of monitoring/views.py lines 113-118 for one
observation: `basin__basin_id=basin_id` (join on the basin pk),
`data_type__name__iexact=data_type`, `datetime__gte=start_dt`,
`datetime__lte=end_dt`.  Note both bounds are inclusive in the source. -/
def tsMatch (db : Db) (bid dtn : String) (startDt endDt : Int) (o : Observation) : Bool :=
  ((db.basins.find? (fun b => b.id == o.basin_id)).map Basin.basin_id == some bid)
    && ((db.dataTypes.find? (fun d => d.id == o.data_type_id)).map
          (fun d => strLower d.name) == some (strLower dtn))
    && decide (startDt ≤ o.datetime) && decide (o.datetime ≤ endDt)

/-- `base_qs` of monitoring/views.py lines 113-118 as a list. -/
def tsBaseFilter (db : Db) (bid dtn : String) (startDt endDt : Int) : List Observation :=
  db.observations.filter (tsMatch db bid dtn startDt endDt)

/-- Resolution choice of monitoring/views.py lines 128-133:
`(request.GET.get("resolution") or "auto").lower()`, and `auto` becomes
`hourly` exactly when `data_count > AGGREGATE_HOURLY_THRESHOLD`, else `raw`. -/
def resolveResolution (env : TsEnv) (resParam : Option String) (dataCount : Nat) : String :=
  let r0 := strLower (if resParam.getD "" = "" then "auto" else resParam.getD "")
  if r0 = "auto" then (if env.hourlyThreshold < dataCount then "hourly" else "raw")
  else r0

/-- monitoring/views.py lines 137-138: sum for data types whose lowered name
is `rainfall` or contains `rain`, average otherwise. -/
def useSumFor (data_type : String) : Bool :=
  let dl := strLower (strTrim data_type)
  dl == "rainfall" || strContains dl "rain"

/-- Stable ascending insertion by `datetime` (models `order_by("datetime")`). -/
def insertObsAsc (o : Observation) : List Observation → List Observation
  | [] => [o]
  | h :: t => if o.datetime < h.datetime then o :: h :: t else h :: insertObsAsc o t

/-- `order_by("datetime")`. -/
def sortByDatetime (l : List Observation) : List Observation :=
  l.foldl (fun acc o => insertObsAsc o acc) []

/-- Ascending insertion for period keys (models `order_by('period')`). -/
def insertIntAsc (x : Int) : List Int → List Int
  | [] => [x]
  | h :: t => if x < h then x :: h :: t else h :: insertIntAsc x t

/-- Ascending sort for period keys. -/
def sortIntAsc (l : List Int) : List Int :=
  l.foldl (fun acc x => insertIntAsc x acc) []

/-- `TruncHour('datetime')` on epoch seconds (floor to the hour boundary). -/
def hourFloor (t : Int) : Int := 3600 * Int.fdiv t 3600

/-- `TruncDay('datetime')` on epoch seconds (floor to the day boundary). -/
def dayFloor (t : Int) : Int := 86400 * Int.fdiv t 86400

/-- Raw points of monitoring/views.py lines 152-156: rows sorted by
datetime, `y = float(value)` modeled as an exact rational. -/
def rawPoints (obs : List Observation) : List (Int × Rat) :=
  (sortByDatetime obs).map (fun o => (o.datetime, (o.value : Rat)))

/-- Aggregated points of monitoring/views.py lines 158-180: group by the
truncated period, `Sum` or `Avg` per group, ordered by period. -/
def aggPoints (obs : List Observation) (trunc : Int → Int) (use_sum : Bool) :
    List (Int × Rat) :=
  let periods := sortIntAsc ((obs.map (fun o => trunc o.datetime)).dedup)
  periods.map (fun p =>
    let vals := (obs.filter (fun o => trunc o.datetime == p)).map (fun o => o.value)
    (p, if use_sum then ((vals.sum : Int) : Rat)
        else ((vals.sum : Int) : Rat) / (vals.length : Rat)))

/-- The summary block of monitoring/views.py lines 184-206: DB aggregates
over the raw matching rows; `Sum`/`Avg`/`Min`/`Max` are `None` (hence `null`)
when no rows match, `count` falls back to 0. -/
structure TsSummary where
  count : Nat
  sum : Option Rat
  avg : Option Rat
  min : Option Rat
  max : Option Rat
  deriving DecidableEq

/-- Builds the summary of monitoring/views.py lines 184-206. -/
def mkSummary (obs : List Observation) : TsSummary :=
  let vals := obs.map (fun o => o.value)
  { count := vals.length
    sum := if vals.isEmpty then none else some ((vals.sum : Int) : Rat)
    avg := if vals.isEmpty then none
           else some (((vals.sum : Int) : Rat) / (vals.length : Rat))
    min := (vals.min?).map (fun v => (v : Rat))
    max := (vals.max?).map (fun v => (v : Rat)) }

/-- Responses of timeseries_api. -/
inductive TsResponse where
  /-- `HttpResponseBadRequest` (status 400) with
  `{"ok": false, "error": "basin_id and data_type required"}`. -/
  | bad (msg : String)
  /-- `JsonResponse(..., status=413)` of monitoring/views.py lines 144-150:
  `{"ok": false, "error": "raw_too_large", "message": …, "data_count": n,
  "resolution": "raw"}`. -/
  | tooLarge (data_count : Nat)
  /-- `JsonResponse` (status 200) of monitoring/views.py lines 208-214:
  `{"ok": true, "data_count": n, "resolution": r, "points": ps, "summary": s}`. -/
  | okResp (data_count : Nat) (resolution : String) (points : List (Int × Rat))
      (summary : TsSummary)
  deriving DecidableEq

/-- HTTP status of a `TsResponse`. -/
def TsResponse.status : TsResponse → Nat
  | .bad _ => 400
  | .tooLarge _ => 413
  | .okResp _ _ _ _ => 200

/-- The `resolution` field of the JSON body, when present. -/
def TsResponse.resolutionField : TsResponse → Option String
  | .bad _ => none
  | .tooLarge _ => some "raw"
  | .okResp _ r _ _ => some r

/-- The `data_count` field of the JSON body, when present. -/
def TsResponse.dataCountField : TsResponse → Option Nat
  | .bad _ => none
  | .tooLarge n => some n
  | .okResp n _ _ _ => some n

/-- The `ok` field of the JSON body. -/
def TsResponse.okField : TsResponse → Bool
  | .okResp _ _ _ _ => true
  | _ => false

/-- monitoring/views.py `timeseries_api` (lines 68-214): missing/falsy
`basin_id` or `data_type` → 400; window bounds resolved (defaulting to the
trailing 24h); the inclusive base filter; resolution resolved; the raw path
guarded by `MAX_RAW_POINTS` returning the 413 `raw_too_large` response;
otherwise points plus summary with status 200. -/
def timeseries_api (env : TsEnv)
    (basin_id data_type startRaw endRaw resolutionParam : Option String) : TsResponse :=
  if basin_id.getD "" = "" ∨ data_type.getD "" = "" then
    .bad "basin_id and data_type required"
  else
    let bid := basin_id.getD ""
    let dtn := data_type.getD ""
    let bounds := windowBounds env startRaw endRaw
    let baseQs := tsBaseFilter env.db bid dtn bounds.1 bounds.2
    let data_count := baseQs.length
    let resolution := resolveResolution env resolutionParam data_count
    let use_sum := useSumFor dtn
    if resolution = "raw" then
      if env.maxRawPoints < data_count then .tooLarge data_count
      else .okResp data_count "raw" (rawPoints baseQs) (mkSummary baseQs)
    else
      let trunc := if resolution = "hourly" then hourFloor
                   else if resolution = "daily" then dayFloor
                   else hourFloor
      .okResp data_count resolution (aggPoints baseQs trunc use_sum) (mkSummary baseQs)

/-! ## CSV ingestion (monitoring/management/commands/ingest_observations.py) -/

/-- One parameter tuple of the batch insert
(ingest_observations.py line 286). -/
structure InsertRow where
  basin_pk : Nat
  data_type_pk : Nat
  dt_str : String
  val_str : String
  source : String
  deriving DecidableEq

/-- Externally visible effects of `Command.handle`.  The two invalidation
constructors correspond to cache_utils.invalidate_timeseries_for_basin and
cache_utils.invalidate_upstream_for_impacted_downstream — the entry points
the Invalidation Coordinator exposes to the ingestion collaborator. -/
inductive IngestEffect where
  /-- `flush_batch`: the multi-row `INSERT … ON DUPLICATE KEY UPDATE`
  (ingest_observations.py lines 114-124). -/
  | upsertBatch (rows : List InsertRow)
  /-- the per-row `update_or_create` fallback
  (ingest_observations.py lines 130-143). -/
  | rowUpsert (row : InsertRow)
  /-- a call to `cache_utils.invalidate_timeseries_for_basin`. -/
  | invalidateTimeseries (basin_id data_type : String)
  /-- a call to `cache_utils.invalidate_upstream_for_impacted_downstream`. -/
  | invalidateUpstream (basin_pk : Nat)
  deriving DecidableEq

/-- Whether an effect is a cache-invalidation call. -/
def IngestEffect.isInvalidation : IngestEffect → Bool
  | .invalidateTimeseries _ _ => true
  | .invalidateUpstream _ => true
  | _ => false

/-- Whether an effect writes observation data. -/
def IngestEffect.isWrite : IngestEffect → Bool
  | .upsertBatch _ => true
  | .rowUpsert _ => true
  | _ => false

/-- Environment of one ingestion run: reference data, the already-resolved
`--data-type` option, the CSV file name (used for data-type inference), the
deterministic source string of `make_file_source`, oracles for
`dateutil.parser.parse → strftime` and `Decimal → format(…, "f")`, and
whether the batch SQL succeeds (`False` exercises the per-row fallback). -/
structure IngestEnv where
  dataTypes : List DataType
  cliDataType : Option DataType
  csvFileName : String
  source : String
  parseDate : String → Option String
  parseDec : String → Option String
  sqlOk : Bool

/-- Mutable state of the ingestion loop: the basin map preloaded at
ingest_observations.py line 91 (extended on `get_or_create`), the next pk
the database would assign, and the pending batch. -/
structure IngestState where
  basinMap : List (String × Nat)
  nextPk : Nat
  insertRows : List InsertRow

/-- Header/key normalization of ingest_observations.py lines 160 and 170:
strip, lower-case, `.` → `_`. -/
def normKey (k : String) : String := strReplaceChar (strLower (strTrim k)) '.' '_'

/-- Row normalization of ingest_observations.py lines 166-171: normalized
keys, stripped values. -/
def normalizeRow (raw : List (String × String)) : List (String × String) :=
  raw.map (fun p => (normKey p.1, strTrim p.2))

/-- `row.get(k)` (a Python dict: the last binding of a key wins). -/
def rowGet (row : List (String × String)) (k : String) : Option String :=
  ((row.filter (fun p => p.1 == k)).getLast?).map (fun p => p.2)

/-- Falsy-chaining `row.get(k1) or row.get(k2) or ""`. -/
def chainGet (row : List (String × String)) : List String → String
  | [] => ""
  | k :: ks =>
    match rowGet row k with
    | some v => if v = "" then chainGet row ks else v
    | none => chainGet row ks

/-- Data-type resolution of ingest_observations.py lines 187-224: the CLI
data type wins; else the `data_type`/`type` column; else inference from the
file name (`temp*` → Temperature, `rain`/`precip` → Rainfall); `none` means
the row is skipped. -/
def resolveRowDataType (env : IngestEnv) (row : List (String × String)) : Option DataType :=
  match env.cliDataType with
  | some dt => some dt
  | none =>
    let dt_name := chainGet row ["data_type", "type"]
    if dt_name ≠ "" then findDataType env.dataTypes dt_name
    else
      let fname := strLower env.csvFileName
      if strContains fname "temp" || strContains fname "temperature" then
        findDataType env.dataTypes "Temperature"
      else if strContains fname "rain" || strContains fname "precip" then
        findDataType env.dataTypes "Rainfall"
      else none

/-- `flush_batch` (ingest_observations.py lines 104-147): nothing on an
empty batch; on success one batch upsert; on SQL failure the per-row ORM
fallback.  It performs no cache invalidation of any kind. -/
def flushEffects (env : IngestEnv) (rows : List InsertRow) : List IngestEffect :=
  if rows.isEmpty then []
  else if env.sqlOk then [.upsertBatch rows]
  else rows.map (fun r => .rowUpsert r)

/-- One iteration of the `for row_index, raw_row in enumerate(reader)` loop
(ingest_observations.py lines 163-292): validation/skip ladder, basin pk
resolution with on-the-fly basin creation, batch append, and a flush when
the batch is full.  Returns the new state and the emitted effects. -/
def processRow (env : IngestEnv) (batchSize : Nat) (st : IngestState)
    (raw : List (String × String)) : IngestState × List IngestEffect :=
  let row := normalizeRow raw
  let basin_key := if (rowGet row "basin_id").isSome then some "basin_id"
                   else if (rowGet row "basin").isSome then some "basin" else none
  match basin_key with
  | none => (st, [])
  | some bk =>
    let basin_val := strTrim ((rowGet row bk).getD "")
    if basin_val = "" then (st, [])
    else
      match resolveRowDataType env row with
      | none => (st, [])
      | some dt =>
        let dt_raw := chainGet row ["datetime", "date", "datetime_utc"]
        if dt_raw = "" then (st, [])
        else
          match env.parseDate dt_raw with
          | none => (st, [])
          | some dt_for_db =>
            let val_raw := chainGet row ["value", "val"]
            if val_raw = "" then (st, [])
            else
              match env.parseDec val_raw with
              | none => (st, [])
              | some val_str =>
                let pkSt : Nat × IngestState :=
                  match st.basinMap.find? (fun p => p.1 == basin_val) with
                  | some p => (p.2, st)
                  | none =>
                    (st.nextPk,
                      { st with
                          basinMap := st.basinMap ++ [(basin_val, st.nextPk)]
                          nextPk := st.nextPk + 1 })
                let st1 := pkSt.2
                let rows' := st1.insertRows
                    ++ [⟨pkSt.1, dt.id, dt_for_db, val_str, env.source⟩]
                if batchSize ≤ rows'.length then
                  ({ st1 with insertRows := [] }, flushEffects env rows')
                else
                  ({ st1 with insertRows := rows' }, [])

/-- One `foldl` step of the row loop: thread the state, accumulate the
emitted effects. -/
def ingestStep (env : IngestEnv) (batchSize : Nat)
    (acc : IngestState × List IngestEffect) (raw : List (String × String)) :
    IngestState × List IngestEffect :=
  ((processRow env batchSize acc.1 raw).1,
    acc.2 ++ (processRow env batchSize acc.1 raw).2)

/-- `Command.handle`'s row loop plus the final flush
(ingest_observations.py lines 163-297), as the list of effects it emits. -/
def ingestRun (env : IngestEnv) (rows : List (List (String × String)))
    (batchSize : Nat) (initMap : List (String × Nat)) (initPk : Nat) :
    List IngestEffect :=
  let fin := rows.foldl (ingestStep env batchSize)
    ({ basinMap := initMap, nextPk := initPk, insertRows := [] }, [])
  fin.2 ++ flushEffects env fin.1.insertRows

/-! ## Spec-side comparison definitions -/

/-- The spec's notion (§4.1, claim C2) of the upstream set: basins reachable
from the root within `k` backward hops following ONLY edges with
`relation_type = "upstream_to_downstream"`.  Written from the spec's words,
to be compared with the implementation's `upstreamBFS`. -/
def specUpstreamReach (rels : List BasinRelation) (root : Nat) : Nat → List Nat
  | 0 => [root]
  | k + 1 =>
    let prev := specUpstreamReach rels root k
    prev ++ (rels.filter (fun r =>
        decide (r.to_basin_id ∈ prev)
          && r.relation_type == "upstream_to_downstream")).map
      (fun r => r.from_basin_id)

/-- Basins reachable from the root within `k` backward hops following edges
of ANY relation type — the bound the implementation actually enforces. -/
def reachWithin (rels : List BasinRelation) (root : Nat) : Nat → List Nat
  | 0 => [root]
  | k + 1 =>
    let prev := reachWithin rels root k
    prev ++ (rels.filter (fun r => decide (r.to_basin_id ∈ prev))).map
      (fun r => r.from_basin_id)

/-- The claim's window predicate (spec §4.2, claim C7): basin and data type
match and `start ≤ timestamp < end` (half-open).  Written from the spec's
words, to be compared with the implementation's `tsMatch`. -/
def specHalfOpenMatch (db : Db) (bid dtn : String) (startDt endDt : Int)
    (o : Observation) : Bool :=
  ((db.basins.find? (fun b => b.id == o.basin_id)).map Basin.basin_id == some bid)
    && ((db.dataTypes.find? (fun d => d.id == o.data_type_id)).map
          (fun d => strLower d.name) == some (strLower dtn))
    && decide (startDt ≤ o.datetime) && decide (o.datetime < endDt)

/-! ## Concrete instances used by witnesses and counterexamples -/

/-- Two-link chain `UP-B → UP-A → DOWN-01`, one Rainfall observation on each
upstream basin. -/
def dbChain : Db :=
  { basins := [⟨0, "DOWN-01"⟩, ⟨1, "UP-A"⟩, ⟨2, "UP-B"⟩]
    relations := [⟨2, 1, "upstream_to_downstream"⟩, ⟨1, 0, "upstream_to_downstream"⟩]
    dataTypes := [⟨1, "Rainfall"⟩]
    observations := [⟨1, 1, 900, 5⟩, ⟨2, 1, 900, 7⟩] }

/-- The root basin of `dbChain`. -/
def basinDown : Basin := ⟨0, "DOWN-01"⟩

/-- Healthy cache backend, always a miss. -/
def envChain : ApiEnv :=
  { db := dbChain, now := 1000
    cacheGet := fun _ => .ok none
    cacheSet := fun _ _ => .ok () }

/-- Cache backend whose `get` raises. -/
def envGetFail : ApiEnv := { envChain with cacheGet := fun _ => .error () }

/-- Cache backend whose `set` raises (its `get` is a miss). -/
def envSetFail : ApiEnv := { envChain with cacheSet := fun _ _ => .error () }

/-- A single backward edge whose relation type is `"other"`, not
`"upstream_to_downstream"`. -/
def relsOther : List BasinRelation := [⟨1, 0, "other"⟩]

/-- An arbitrary stale payload sitting in the cache. -/
def cachedPayloadW : UpPayload := ⟨"STALE", "Ghost", 24, "1", "2", 3⟩

/-- Environment whose cache always hits with `cachedPayloadW` and whose
DataType table is empty (the cached data type no longer exists). -/
def envCacheHit : ApiEnv :=
  { db := { basins := [⟨0, "DOWN-01"⟩], relations := [], dataTypes := []
            observations := [] }
    now := 1000
    cacheGet := fun _ => .ok (some cachedPayloadW)
    cacheSet := fun _ _ => .ok () }

/-- A 250-character external basin identifier. -/
def longB : String := String.mk (List.replicate 250 'x')

/-- A stand-in for `hashlib.sha1(...).hexdigest()` (any 40-hex-char value). -/
def sha1Stub : String → String := fun _ => "0123456789abcdef0123456789abcdef01234567"

/-- One basin, one Rainfall observation whose timestamp is exactly 100. -/
def dbTs : Db :=
  { basins := [⟨0, "B1"⟩], relations := [], dataTypes := [⟨1, "Rainfall"⟩]
    observations := [⟨0, 1, 100, 15⟩] }

/-- Datetime-parsing oracle mapping `"S"` to 0 and `"E"` to 100. -/
def parseDtC7 : String → Option Int :=
  fun s => if s == "S" then some 0 else if s == "E" then some 100 else none

/-- Timeseries environment around `dbTs` with the default tunables. -/
def envC7 : TsEnv :=
  { db := dbTs, now := 100000, hourlyThreshold := 2000, maxRawPoints := 5000
    parseDt := parseDtC7 }

/-- One basin with three Rainfall observations inside the last 24 hours. -/
def dbW : Db :=
  { basins := [⟨0, "B1"⟩], relations := [], dataTypes := [⟨1, "Rainfall"⟩]
    observations := [⟨0, 1, 90000, 1⟩, ⟨0, 1, 90001, 2⟩, ⟨0, 1, 90002, 3⟩] }

/-- Hourly threshold 2, raw ceiling 5: three matching rows exceed the
threshold, so `auto` resolves to hourly. -/
def envW : TsEnv :=
  { db := dbW, now := 100000, hourlyThreshold := 2, maxRawPoints := 5
    parseDt := fun _ => none }

/-- Hourly threshold 10: three matching rows stay raw. -/
def envW2 : TsEnv := { envW with hourlyThreshold := 10 }

/-- Raw ceiling 2: three raw rows trip the 413 guard. -/
def envW3 : TsEnv := { envW with maxRawPoints := 2 }

/-- Ingestion environment: Rainfall known, no CLI data type, oracles
accepting exactly the values of `rowsIngest`, batch SQL succeeding. -/
def envIngest : IngestEnv :=
  { dataTypes := [⟨1, "Rainfall"⟩]
    cliDataType := none
    csvFileName := "observations.csv"
    source := "observations.csv::abc123def456"
    parseDate := fun s =>
      if s == "2026-01-01T00:00:00" then some "2026-01-01 00:00:00" else none
    parseDec := fun s => if s == "15.5" then some "15.5" else none
    sqlOk := true }

/-- One fully valid CSV row for basin `B1`. -/
def rowsIngest : List (List (String × String)) :=
  [[("basin_id", "B1"), ("data_type", "Rainfall"),
    ("datetime", "2026-01-01T00:00:00"), ("value", "15.5")]]

/-! ## Supporting lemmas for the BFS -/

/-- Every neighbour produced by `relationsInto` is a `from_basin_id`. -/
theorem relationsInto_subset_fromIds (rels : List BasinRelation) (cur n : Nat)
    (h : n ∈ relationsInto rels cur) : n ∈ fromIds rels := by
  simp only [relationsInto, List.mem_map, List.mem_filter] at h
  obtain ⟨r, ⟨hr, _⟩, rfl⟩ := h
  exact List.mem_map.mpr ⟨r, hr, rfl⟩

/-- `reachWithin` grows along a backward edge. -/
theorem reachWithin_step (rels : List BasinRelation) (root : Nat) (d : Nat)
    (cur n : Nat) (hcur : cur ∈ reachWithin rels root d)
    (hn : n ∈ relationsInto rels cur) : n ∈ reachWithin rels root (d + 1) := by
  simp only [relationsInto, List.mem_map, List.mem_filter] at hn
  obtain ⟨r, ⟨hr, hto⟩, rfl⟩ := hn
  have hto' : r.to_basin_id = cur := by simpa using hto
  simp only [reachWithin, List.mem_append, List.mem_map, List.mem_filter]
  refine Or.inr ⟨r, ⟨hr, ?_⟩, rfl⟩
  simp [hto', hcur]

/-- `reachWithin` is monotone in the hop bound. -/
theorem reachWithin_mono (rels : List BasinRelation) (root : Nat) :
    ∀ {k m : Nat}, k ≤ m → reachWithin rels root k ⊆ reachWithin rels root m := by
  intro k m hkm
  induction m with
  | zero => cases Nat.le_zero.mp hkm; exact fun _ h => h
  | succ m ih =>
    rcases Nat.lt_or_ge k (m + 1) with hlt | hge
    · intro x hx
      have hx' := ih (Nat.lt_succ_iff.mp hlt) hx
      simp only [reachWithin, List.mem_append]
      exact Or.inl hx'
    · have : k = m + 1 := Nat.le_antisymm hkm hge
      subst this
      exact fun _ h => h

/-- Characterization of the inner enqueue fold: it appends a duplicate-free
block `ex` of fresh neighbours to both the visited set and the queue. -/
theorem enqueueFold_eq (d : Nat) :
    ∀ (nbrs visited : List Nat) (queue : List (Nat × Nat)),
    ∃ ex : List Nat,
      enqueueFold d visited queue nbrs
        = (visited ++ ex, queue ++ ex.map (fun n => (n, d + 1)))
      ∧ ex.Nodup ∧ ∀ n ∈ ex, n ∉ visited ∧ n ∈ nbrs := by
  intro nbrs
  induction nbrs with
  | nil => intro visited queue; exact ⟨[], by simp [enqueueFold], List.nodup_nil, by simp⟩
  | cons a t ih =>
    intro visited queue
    by_cases ha : a ∈ visited
    · obtain ⟨ex, heq, hnd, hprop⟩ := ih visited queue
      refine ⟨ex, ?_, hnd, fun n hn => ⟨(hprop n hn).1, List.mem_cons_of_mem a (hprop n hn).2⟩⟩
      simpa [enqueueFold, ha] using heq
    · obtain ⟨ex, heq, hnd, hprop⟩ := ih (visited ++ [a]) (queue ++ [(a, d + 1)])
      refine ⟨a :: ex, ?_, ?_, ?_⟩
      · have : enqueueFold d visited queue (a :: t)
            = enqueueFold d (visited ++ [a]) (queue ++ [(a, d + 1)]) t := by
          simp [enqueueFold, ha]
        rw [this, heq]
        simp
      · refine List.nodup_cons.mpr ⟨?_, hnd⟩
        intro hmem
        exact (hprop a hmem).1 (by simp)
      · intro n hn
        rcases List.mem_cons.mp hn with rfl | hn'
        · exact ⟨ha, by simp⟩
        · refine ⟨fun hv => (hprop n hn').1 (by simp [hv]), List.mem_cons_of_mem a (hprop n hn').2⟩

/-- Appending a block of fresh potential targets to `visited` lowers the
termination measure by exactly the block length. -/
theorem countFresh_append (rels : List BasinRelation) (visited ex : List Nat)
    (hnd : ex.Nodup) (hsub : ∀ n ∈ ex, n ∈ fromIds rels)
    (hfr : ∀ n ∈ ex, n ∉ visited) :
    ex.length ≤ countFresh rels visited
    ∧ countFresh rels (visited ++ ex) + ex.length = countFresh rels visited := by
  classical
  set S := (fromIds rels).toFinset with hS
  set V := visited.toFinset with hV
  set E := ex.toFinset with hE
  have hEsub : E ⊆ S \ V := by
    intro x hx
    rw [hE, List.mem_toFinset] at hx
    rw [Finset.mem_sdiff]
    exact ⟨List.mem_toFinset.mpr (hsub x hx),
      fun hv => hfr x hx (List.mem_toFinset.mp hv)⟩
  have hcardE : E.card = ex.length := by
    rw [hE]; exact List.toFinset_card_of_nodup hnd
  have h1 : ex.length ≤ countFresh rels visited := by
    have := Finset.card_le_card hEsub
    rw [hcardE] at this
    exact this
  refine ⟨h1, ?_⟩
  have hsplit : S \ (visited ++ ex).toFinset = (S \ V) \ E := by
    ext x
    simp only [Finset.mem_sdiff, List.toFinset_append, Finset.mem_union, hV, hE]
    tauto
  have : countFresh rels (visited ++ ex) = (S \ V).card - E.card := by
    unfold countFresh
    rw [← hS, hsplit, Finset.card_sdiff hEsub]
  rw [this, hcardE]
  have hCV : countFresh rels visited = (S \ V).card := rfl
  have h2 : ex.length ≤ (S \ V).card := by
    rw [← hcardE]; exact Finset.card_le_card hEsub
  omega

/-- The measure is bounded by the relation count. -/
theorem countFresh_le (rels : List BasinRelation) (visited : List Nat) :
    countFresh rels visited ≤ rels.length := by
  calc countFresh rels visited
      ≤ (fromIds rels).toFinset.card := Finset.card_le_card (Finset.sdiff_subset)
    _ ≤ (fromIds rels).length := List.toFinset_card_le _
    _ = rels.length := by simp [fromIds]

/-- Master invariant lemma for the BFS loop of api/views.py lines 110-121:
with fuel exceeding `queue length + countFresh`, the loop completes, the
trace of dequeued nodes is duplicate-free, and (when `depth ≥ 1`) every
upstream member is a non-root node within `depth` backward hops. -/
theorem bfsAux_spec (rels : List BasinRelation) (root : Nat) (depth : Int) :
    ∀ (fuel : Nat) (queue : List (Nat × Nat)) (visited ups trace : List Nat),
      queue.length + countFresh rels visited < fuel →
      visited.Nodup →
      root ∈ visited →
      (∀ p ∈ queue, p.1 ∈ visited) →
      (∀ x ∈ trace, x ∈ visited) →
      (trace ++ queue.map Prod.fst).Nodup →
      (∀ p ∈ queue, p.1 ∈ reachWithin rels root p.2) →
      (∀ p ∈ queue, p.1 = root → p.2 = 0) →
      (1 ≤ depth → ∀ p ∈ queue, (p.2 : Int) ≤ depth) →
      (∀ n ∈ ups, n ≠ root ∧ (1 ≤ depth → n ∈ reachWithin rels root depth.toNat)) →
      ∃ u t, bfsAux rels depth fuel queue visited ups trace = some (u, t)
        ∧ t.Nodup
        ∧ (∀ n ∈ u, n ≠ root ∧ (1 ≤ depth → n ∈ reachWithin rels root depth.toNat)) := by
  intro fuel
  induction fuel with
  | zero =>
    intro queue visited ups trace hcount _ _ _ _ _ _ _ _ _
    exact absurd hcount (Nat.not_lt_zero _)
  | succ f ih =>
    intro queue visited ups trace hcount hvnd hroot hqv htv hnd hreach hrootd hdep hups
    rcases queue with _ | ⟨⟨cur, d⟩, rest⟩
    · refine ⟨ups, trace, rfl, ?_, hups⟩
      simpa using hnd
    · have hcurv : cur ∈ visited := hqv (cur, d) (List.mem_cons_self _ _)
      have hcurreach : cur ∈ reachWithin rels root d :=
        hreach (cur, d) (List.mem_cons_self _ _)
      have hups' : ∀ n ∈ upsAdd d cur ups,
          n ≠ root ∧ (1 ≤ depth → n ∈ reachWithin rels root depth.toNat) := by
        intro n hn
        unfold upsAdd at hn
        by_cases hd1 : 1 ≤ d
        · rw [if_pos hd1] at hn
          by_cases hcu : cur ∈ ups
          · rw [if_pos hcu] at hn; exact hups n hn
          · rw [if_neg hcu] at hn
            rcases List.mem_append.mp hn with hn' | hn'
            · exact hups n hn'
            · have hcn : n = cur := by simpa using hn'
              subst hcn
              constructor
              · intro hnr
                have := hrootd (n, d) (List.mem_cons_self _ _) hnr
                omega
              · intro hdep1
                have hdle : (d : Int) ≤ depth :=
                  hdep hdep1 (n, d) (List.mem_cons_self _ _)
                have hdn : d ≤ depth.toNat := by omega
                exact reachWithin_mono rels root hdn hcurreach
        · rw [if_neg hd1] at hn; exact hups n hn
      have htv' : ∀ x ∈ trace ++ [cur], x ∈ visited := by
        intro x hx
        rcases List.mem_append.mp hx with h | h
        · exact htv x h
        · have : x = cur := by simpa using h
          subst this; exact hcurv
      have hbase : ((trace ++ [cur]) ++ rest.map Prod.fst).Nodup := by
        rw [List.append_assoc]
        simpa using hnd
      have hcount' : rest.length + 1 + countFresh rels visited < f + 1 := by
        simpa using hcount
      by_cases hc : depth ≠ 0 ∧ depth ≤ (d : Int)
      · obtain ⟨u, t, heq, hts, hums⟩ :=
          ih rest visited (upsAdd d cur ups) (trace ++ [cur])
            (by omega)
            hvnd hroot
            (fun p hp => hqv p (List.mem_cons_of_mem _ hp))
            htv'
            hbase
            (fun p hp => hreach p (List.mem_cons_of_mem _ hp))
            (fun p hp => hrootd p (List.mem_cons_of_mem _ hp))
            (fun h1 p hp => hdep h1 p (List.mem_cons_of_mem _ hp))
            hups'
        refine ⟨u, t, ?_, hts, hums⟩
        simp only [bfsAux]
        rw [if_pos hc]
        exact heq
      · obtain ⟨ex, hfold, hexnd, hexprop⟩ :=
          enqueueFold_eq d (relationsInto rels cur) visited rest
        have hexsub : ∀ n ∈ ex, n ∈ fromIds rels :=
          fun n hn => relationsInto_subset_fromIds rels cur n (hexprop n hn).2
        have hexfr : ∀ n ∈ ex, n ∉ visited := fun n hn => (hexprop n hn).1
        obtain ⟨hle, hcf⟩ := countFresh_append rels visited ex hexnd hexsub hexfr
        have hdisj : visited.Disjoint ex := fun _ ha hb => hexfr _ hb ha
        have hvnd' : (visited ++ ex).Nodup := List.Nodup.append hvnd hexnd hdisj
        have hqlen : (rest ++ ex.map (fun n => (n, d + 1))).length
            = rest.length + ex.length := by simp
        have hqv' : ∀ p ∈ rest ++ ex.map (fun n => (n, d + 1)), p.1 ∈ visited ++ ex := by
          intro p hp
          rcases List.mem_append.mp hp with h | h
          · exact List.mem_append.mpr (Or.inl (hqv p (List.mem_cons_of_mem _ h)))
          · obtain ⟨n, hn, rfl⟩ := List.mem_map.mp h
            exact List.mem_append.mpr (Or.inr hn)
        have htv'' : ∀ x ∈ trace ++ [cur], x ∈ visited ++ ex :=
          fun x hx => List.mem_append.mpr (Or.inl (htv' x hx))
        have hmapfst : (rest ++ ex.map (fun n => (n, d + 1))).map Prod.fst
            = rest.map Prod.fst ++ ex := by
          simp only [List.map_append, List.map_map]
          rw [show (Prod.fst ∘ fun n : Nat => (n, d + 1)) = id from rfl, List.map_id]
        have hLv : ∀ a ∈ (trace ++ [cur]) ++ rest.map Prod.fst, a ∈ visited := by
          intro a ha
          rcases List.mem_append.mp ha with h | h
          · exact htv' a h
          · obtain ⟨p, hp, rfl⟩ := List.mem_map.mp h
            exact hqv p (List.mem_cons_of_mem _ hp)
        have hnd'' : ((trace ++ [cur])
            ++ (rest ++ ex.map (fun n => (n, d + 1))).map Prod.fst).Nodup := by
          rw [hmapfst, ← List.append_assoc]
          exact List.Nodup.append hbase hexnd (fun a ha hb => hexfr a hb (hLv a ha))
        have hreach' : ∀ p ∈ rest ++ ex.map (fun n => (n, d + 1)),
            p.1 ∈ reachWithin rels root p.2 := by
          intro p hp
          rcases List.mem_append.mp hp with h | h
          · exact hreach p (List.mem_cons_of_mem _ h)
          · obtain ⟨n, hn, rfl⟩ := List.mem_map.mp h
            exact reachWithin_step rels root d cur n hcurreach (hexprop n hn).2
        have hrootd' : ∀ p ∈ rest ++ ex.map (fun n => (n, d + 1)),
            p.1 = root → p.2 = 0 := by
          intro p hp
          rcases List.mem_append.mp hp with h | h
          · exact hrootd p (List.mem_cons_of_mem _ h)
          · obtain ⟨n, hn, rfl⟩ := List.mem_map.mp h
            intro hr
            have hn2 : n = root := hr
            rw [hn2] at hn
            exact absurd hroot (hexfr root hn)
        have hdep' : 1 ≤ depth → ∀ p ∈ rest ++ ex.map (fun n => (n, d + 1)),
            (p.2 : Int) ≤ depth := by
          intro h1 p hp
          rcases List.mem_append.mp hp with h | h
          · exact hdep h1 p (List.mem_cons_of_mem _ h)
          · obtain ⟨n, hn, rfl⟩ := List.mem_map.mp h
            have hnle : ¬ depth ≤ (d : Int) := fun hle => hc ⟨by omega, hle⟩
            push_cast
            omega
        obtain ⟨u, t, heq, hts, hums⟩ :=
          ih (rest ++ ex.map (fun n => (n, d + 1))) (visited ++ ex)
            (upsAdd d cur ups) (trace ++ [cur])
            (by omega)
            hvnd'
            (List.mem_append.mpr (Or.inl hroot))
            hqv' htv'' hnd'' hreach' hrootd' hdep' hups'
        refine ⟨u, t, ?_, hts, hums⟩
        simp only [bfsAux]
        rw [if_neg hc, hfold]
        exact heq

/-! ## Claim theorems: concrete evaluations -/

/-- C1: the claim requires `depth=0` to mean "no upstream traversal": empty
upstream set, `upstream_count = 0`, `upstream_total = "0"`.  The code instead
guards expansion with `if depth and cur_depth >= depth` (api/views.py line
114) — Python truthiness — so a zero depth never stops expansion.  On the
two-link chain `UP-B → UP-A → DOWN-01` with upstream observations 5 and 7, a
`depth=0` request returns the entire upstream component: `upstream_count =
2` and `upstream_total = "12"`. -/
theorem C1_depth_zero_traverses_fully :
    upstream_aggregate envChain basinDown (some "Rainfall") (some "24h") (some "0")
      = .ok (.payload 200
          { basin_id := "DOWN-01", data_type := "Rainfall", window_hours := 24
            basin_total := "0", upstream_total := "12", upstream_count := 2 }) := rfl

/-- C3: a Result Cache failure is NOT recovered by the view.  With a backend
whose `get` raises, the exception propagates out of `upstream_aggregate`
(api/views.py line 79 has no try/except); with a backend whose `set` raises,
the `except` handler at lines 149-150 itself raises `NameError` because
`logger` is never defined in monitoring/api/views.py — so the computed
payload is lost in both cases instead of being returned. -/
theorem C3_cache_errors_propagate :
    upstream_aggregate envGetFail basinDown (some "Rainfall") (some "24h") (some "1")
      = .error .cacheBackend
    ∧ upstream_aggregate envSetFail basinDown (some "Rainfall") (some "24h") (some "1")
      = .error .nameError :=
  ⟨rfl, rfl⟩

/-- C6 counterexample: `depth=abc` does not produce a 4xx detail response —
`int(request.query_params.get("depth", 1))` at api/views.py line 73 is not
guarded, so the request dies with an uncaught `ValueError` (a server error),
falsifying "never a 5xx". -/
theorem C6_counterexample :
    upstream_aggregate envChain basinDown (some "Rainfall") (some "24h") (some "abc")
      = .error .valueError := rfl

/-- C2 counterexample: with the single backward edge `1 → 0` of relation
type `"other"`, a depth-1 traversal from basin 0 still returns basin 1
(api/views.py line 116 filters only on `to_basin_id`, never on
`relation_type`), although basin 1 is not reachable within one hop following
only `upstream_to_downstream` edges. -/
theorem C2_counterexample :
    1 ∈ upstreamBFS relsOther 0 1 ∧ 1 ∉ specUpstreamReach relsOther 0 1 := by
  decide

/-- C7 counterexample: an observation whose timestamp equals the window end
(here `end = 100`) is counted by the endpoint (`data_count = 1`), while the
claim's half-open predicate excludes it (0 matching rows): the source uses
`datetime__lte=end_dt` (monitoring/views.py line 117), a closed interval. -/
theorem C7_counterexample :
    (timeseries_api envC7 (some "B1") (some "Rainfall") (some "S") (some "E")
        (some "raw")).dataCountField = some 1
    ∧ (dbTs.observations.filter (specHalfOpenMatch dbTs "B1" "Rainfall" 0 100)).length
        = 0 :=
  ⟨rfl, rfl⟩

/-- C4 counterexample: a run of the ingestion command over one fully valid
CSV row emits exactly one batch upsert and no invalidation call whatsoever —
`Command.handle` never references `cache_utils`. -/
theorem C4_counterexample :
    ingestRun envIngest rowsIngest 2000 [("B1", 7)] 8
      = [.upsertBatch [⟨7, 1, "2026-01-01 00:00:00", "15.5",
          "observations.csv::abc123def456"⟩]]
    ∧ (ingestRun envIngest rowsIngest 2000 [("B1", 7)] 8).all
        (fun e => !e.isInvalidation) = true :=
  ⟨rfl, rfl⟩

set_option maxRecDepth 40000 in
/-- C5 counterexample: a 250-character basin identifier composes an upstream
key of 279 characters, and `upstream_key` (cache_utils.py lines 37-38)
returns it verbatim — there is no length check and no hashed replacement in
the upstream-aggregate key family, falsifying "every key returned by the
codec is length-bounded". -/
theorem C5_counterexample :
    200 < (upstream_key longB "Rainfall" "24h" 1).length
    ∧ strStartsWith (upstream_key longB "Rainfall" "24h" 1) "upstream_agg:hash:"
        = false := by
  refine ⟨by decide, by decide⟩

/-- The master lemma instantiated at the true initial state of the loop
(api/views.py lines 107-108): queue `[(root, 0)]`, visited `[root]`. -/
theorem upstreamBFS_run (rels : List BasinRelation) (root : Nat) (depth : Int) :
    ∃ u t, bfsAux rels depth (bfsFuel rels) [(root, 0)] [root] [] [] = some (u, t)
      ∧ t.Nodup
      ∧ (∀ n ∈ u, n ≠ root ∧ (1 ≤ depth → n ∈ reachWithin rels root depth.toNat)) := by
  have hcf := countFresh_le rels [root]
  refine bfsAux_spec rels root depth (bfsFuel rels) [(root, 0)] [root] [] []
    ?_ ?_ ?_ ?_ ?_ ?_ ?_ ?_ ?_ ?_
  · unfold bfsFuel; simpa using by omega
  · simp
  · simp
  · intro p hp
    have : p = (root, 0) := by simpa using hp
    subst this; simp
  · intro x hx; simp at hx
  · simp
  · intro p hp
    have : p = (root, 0) := by simpa using hp
    subst this
    simp [reachWithin]
  · intro p hp _
    have : p = (root, 0) := by simpa using hp
    subst this; rfl
  · intro _ p hp
    have : p = (root, 0) := by simpa using hp
    subst this
    simp; omega
  · intro n hn; simp at hn

/-- C9: for every relation table (cyclic graphs included) and every depth
value, the BFS of api/views.py lines 102-121 terminates within
`|relations| + 2` loop iterations, and the trace of visited (dequeued) nodes
is duplicate-free — each basin is enqueued and visited at most once, the
visited set making re-exploration impossible. -/
theorem C9_bfs_terminates_visits_once (rels : List BasinRelation) (root : Nat)
    (depth : Int) :
    ∃ u t, bfsAux rels depth (bfsFuel rels) [(root, 0)] [root] [] [] = some (u, t)
      ∧ t.Nodup := by
  obtain ⟨u, t, h1, h2, _⟩ := upstreamBFS_run rels root depth
  exact ⟨u, t, h1, h2⟩

/-- C2 (amended): for depth `D ≥ 1`, every member of the upstream set is a
basin reachable from the root within `D` backward hops following edges of
ANY relation type (the source never filters on `relation_type`), and the
root itself is never a member.  The original claim's restriction to
`upstream_to_downstream` edges is refuted by `C2_counterexample`. -/
theorem C2_members_within_depth (rels : List BasinRelation) (root : Nat)
    (depth : Int) (h1 : 1 ≤ depth) :
    ∀ n ∈ upstreamBFS rels root depth,
      n ∈ reachWithin rels root depth.toNat ∧ n ≠ root := by
  obtain ⟨u, t, heq, _, hmem⟩ := upstreamBFS_run rels root depth
  have hub : upstreamBFS rels root depth = u := by
    unfold upstreamBFS
    rw [heq]
  intro n hn
  rw [hub] at hn
  exact ⟨(hmem n hn).2 h1, (hmem n hn).1⟩

/-- C2 witness: on the concrete chain `UP-B → UP-A → DOWN-01`, basin 1 — a
member of the depth-1 upstream set of basin 0 — is within one backward hop
and is not the root. -/
theorem C2_witness :
    1 ∈ reachWithin dbChain.relations 0 (Int.toNat 1) ∧ 1 ≠ 0 :=
  C2_members_within_depth dbChain.relations 0 1 (by decide) 1 (by decide)

/-- C10: if the literal `(basin_id, data_type, window, depth)` key hits the
cache, the cached payload is returned with status 200 before the window
string is parsed and before the data type is looked up: the statement
quantifies over EVERY window string (malformed ones included) and every
DataType table (the deleted-data-type case included), neither of which can
affect the result. -/
theorem C10_cache_hit_short_circuits (env : ApiEnv) (basin : Basin)
    (dtn w dp : String) (d : Int) (p : UpPayload)
    (hdt : dtn ≠ "")
    (hdp : pyInt dp = some d)
    (hhit : env.cacheGet (upstream_key basin.basin_id dtn w d) = .ok (some p)) :
    upstream_aggregate env basin (some dtn) (some w) (some dp)
      = .ok (.payload 200 p) := by
  unfold upstream_aggregate
  simp only [Option.getD_some, hdp, if_neg hdt, hhit]

/-- C10 witness: with an always-hitting cache, an empty DataType table and
the malformed window `"not a window!!"`, the stale payload still comes back
with status 200. -/
theorem C10_witness :
    upstream_aggregate envCacheHit basinDown (some "Ghost") (some "not a window!!")
        (some "2")
      = .ok (.payload 200 cachedPayloadW) :=
  C10_cache_hit_short_circuits envCacheHit basinDown "Ghost" "not a window!!" "2" 2
    cachedPayloadW (by decide) (by decide) rfl

/-- C6 (amended): on a cache miss, a window that is neither a bare integer
nor an integer suffixed with `h` yields the 400 response `"invalid window
format"`; but a depth parameter that `int()` cannot parse raises an uncaught
`ValueError` (a server error, not a 4xx), regardless of every other
parameter — refuting the original "never a 5xx" for the depth half
(`C6_counterexample`). -/
theorem C6_window_and_depth_validation :
    (∀ (env : ApiEnv) (basin : Basin) (dtn w dp : String) (d : Int),
        dtn ≠ "" →
        pyInt dp = some d →
        env.cacheGet (upstream_key basin.basin_id dtn w d) = .ok none →
        (if strEndsWith w "h" then pyInt (strDropRight w 1) else pyInt w) = none →
        upstream_aggregate env basin (some dtn) (some w) (some dp)
          = .ok (.detail 400 "invalid window format"))
    ∧ (∀ (env : ApiEnv) (basin : Basin) (dtp wp : Option String) (dp : String),
        pyInt dp = none →
        upstream_aggregate env basin dtp wp (some dp) = .error .valueError) := by
  constructor
  · intro env basin dtn w dp d hdt hdp hmiss hwin
    unfold upstream_aggregate
    simp only [Option.getD_some, hdp, if_neg hdt, hmiss, hwin]
  · intro env basin dtp wp dp hdp
    unfold upstream_aggregate
    simp only [hdp]

/-- C6 witness: the window `"soon"` gets the 400 detail response on a cache
miss; the depth `"1.5"` kills the request with a `ValueError`. -/
theorem C6_witness :
    upstream_aggregate envChain basinDown (some "Rainfall") (some "soon") (some "1")
      = .ok (.detail 400 "invalid window format")
    ∧ upstream_aggregate envChain basinDown (some "Rainfall") (some "24h") (some "1.5")
      = .error .valueError :=
  ⟨C6_window_and_depth_validation.1 envChain basinDown "Rainfall" "soon" "1" 1
      (by decide) (by decide) rfl (by decide),
    C6_window_and_depth_validation.2 envChain basinDown (some "Rainfall") (some "24h")
      "1.5" (by decide)⟩

/-- C5 (amended): the bounding rule holds for the timeseries family only —
a composed timeseries key over 200 characters is replaced by
`timeseries:hash:` plus the first 16 hex characters of the SHA-1 of the full
key — while `upstream_key` always returns the literal composition, whose
length `17 + |basin| + |data type| + |window| + |str(depth)|` is unbounded
in its inputs (refuting boundedness, `C5_counterexample`). -/
theorem C5_bounding_only_timeseries :
    (∀ (sha1hex : String → String) (b dt r : String) (s e : Option String),
        200 < (timeseries_composed b dt s e r).length →
        timeseries_key sha1hex b dt s e r
          = "timeseries:hash:" ++ strTake (sha1hex (timeseries_composed b dt s e r)) 16)
    ∧ (∀ (b dt w : String) (dep : Int),
        (upstream_key b dt w dep).length
          = 17 + b.length + dt.length + w.length + (strOfInt dep).length) := by
  constructor
  · intro sha1hex b dt r s e h
    unfold timeseries_key
    rw [if_pos h]
  · intro b dt w dep
    unfold upstream_key
    simp only [String.length_append,
      (by decide : ("upstream_agg:").length = 13),
      (by decide : (":").length = 1),
      (by decide : (":d").length = 2)]
    omega

set_option maxRecDepth 40000 in
/-- C5 witness: at the 250-character basin identifier, the long timeseries
key is replaced by its hashed form, and the upstream key's length is exactly
the sum of its parts (279 characters, unhashed). -/
theorem C5_witness :
    timeseries_key sha1Stub longB "Rainfall" none none "auto"
      = "timeseries:hash:"
        ++ strTake (sha1Stub (timeseries_composed longB "Rainfall" none none "auto")) 16
    ∧ (upstream_key longB "Rainfall" "24h" 1).length
      = 17 + longB.length + "Rainfall".length + "24h".length + (strOfInt 1).length :=
  ⟨C5_bounding_only_timeseries.1 sha1Stub longB "Rainfall" "auto" none none (by decide),
    C5_bounding_only_timeseries.2 longB "Rainfall" "24h" 1⟩

/-- C7 (amended): an observation enters the base queryset of the timeseries
endpoint iff its basin external id matches, its data type name matches
case-insensitively, and `start ≤ timestamp ≤ end` — a CLOSED interval
(`datetime__lte`), so the boundary observation at `end` is included
(refuting the half-open claim, `C7_counterexample`); and for valid
parameters the response's `data_count` is exactly the size of that
queryset. -/
theorem C7_closed_window :
    (∀ (db : Db) (bid dtn : String) (s e : Int) (o : Observation),
        o ∈ tsBaseFilter db bid dtn s e ↔
          (o ∈ db.observations
            ∧ (db.basins.find? (fun b => b.id == o.basin_id)).map Basin.basin_id
                = some bid
            ∧ (db.dataTypes.find? (fun d => d.id == o.data_type_id)).map
                (fun d => strLower d.name) = some (strLower dtn)
            ∧ s ≤ o.datetime ∧ o.datetime ≤ e))
    ∧ (∀ (env : TsEnv) (bid dtn : String) (sR eR resP : Option String),
        bid ≠ "" → dtn ≠ "" →
        (timeseries_api env (some bid) (some dtn) sR eR resP).dataCountField
          = some (tsBaseFilter env.db bid dtn
              (windowBounds env sR eR).1 (windowBounds env sR eR).2).length) := by
  constructor
  · intro db bid dtn s e o
    simp [tsBaseFilter, List.mem_filter, tsMatch, Bool.and_eq_true,
      decide_eq_true_eq, and_assoc]
  · intro env bid dtn sR eR resP hb hd
    unfold timeseries_api
    rw [if_neg (by simp [hb, hd])]
    simp only [Option.getD_some]
    split
    · split
      · rfl
      · rfl
    · rfl

/-- C7 witness: part 2 of the amended statement at the concrete boundary
environment — the reported `data_count` equals the closed-interval filter's
size. -/
theorem C7_witness :
    (timeseries_api envC7 (some "B1") (some "Rainfall") (some "S") (some "E")
        (some "raw")).dataCountField
      = some (tsBaseFilter envC7.db "B1" "Rainfall"
          (windowBounds envC7 (some "S") (some "E")).1
          (windowBounds envC7 (some "S") (some "E")).2).length :=
  C7_closed_window.2 envC7 "B1" "Rainfall" (some "S") (some "E") (some "raw")
    (by decide) (by decide)

/-- C8: with `resolution=auto` the resolution resolves to `hourly` iff the
matching row count strictly exceeds the hourly threshold and to `raw`
otherwise; and whenever the resolved resolution is `raw` and the count
strictly exceeds the raw ceiling, the endpoint returns the 413
`raw_too_large` response carrying the `data_count` instead of serializing
raw points (monitoring/views.py lines 128-150). -/
theorem C8_resolution_and_raw_ceiling
    (env : TsEnv) (bid dtn : String) (sR eR resP : Option String) (n : Nat)
    (hb : bid ≠ "") (hd : dtn ≠ "")
    (hn : n = (tsBaseFilter env.db bid dtn
        (windowBounds env sR eR).1 (windowBounds env sR eR).2).length) :
    (resP = some "auto" → env.hourlyThreshold < n →
        (timeseries_api env (some bid) (some dtn) sR eR resP).resolutionField
          = some "hourly")
    ∧ (resP = some "auto" → n ≤ env.hourlyThreshold →
        (timeseries_api env (some bid) (some dtn) sR eR resP).resolutionField
          = some "raw")
    ∧ (resolveResolution env resP n = "raw" → env.maxRawPoints < n →
        timeseries_api env (some bid) (some dtn) sR eR resP = .tooLarge n) := by
  subst hn
  have hres0 : ∀ m : Nat, resolveResolution env (some "auto") m
      = if env.hourlyThreshold < m then "hourly" else "raw" := fun _ => rfl
  refine ⟨?_, ?_, ?_⟩
  · intro hauto hlt
    subst hauto
    unfold timeseries_api
    rw [if_neg (by simp [hb, hd])]
    simp only [Option.getD_some, hres0, if_pos hlt]
    rw [if_neg (by decide : ¬ ("hourly" = "raw"))]
    rfl
  · intro hauto hle
    subst hauto
    unfold timeseries_api
    rw [if_neg (by simp [hb, hd])]
    have hnl : ¬ env.hourlyThreshold < (tsBaseFilter env.db bid dtn
        (windowBounds env sR eR).1 (windowBounds env sR eR).2).length := by omega
    simp only [Option.getD_some, hres0, if_neg hnl]
    rw [if_pos trivial]
    split
    · rfl
    · rfl
  · intro hraw hceil
    unfold timeseries_api
    rw [if_neg (by simp [hb, hd])]
    simp only [Option.getD_some, hraw]
    rw [if_pos trivial, if_pos hceil]

/-- C8 witness: with threshold 2 and three matching rows, `auto` resolves to
hourly; with threshold 10, to raw; with ceiling 2 and `resolution=raw`, the
endpoint returns `tooLarge 3` (the 413 `raw_too_large` response). -/
theorem C8_witness :
    (timeseries_api envW (some "B1") (some "Rainfall") none none
        (some "auto")).resolutionField = some "hourly"
    ∧ (timeseries_api envW2 (some "B1") (some "Rainfall") none none
        (some "auto")).resolutionField = some "raw"
    ∧ timeseries_api envW3 (some "B1") (some "Rainfall") none none (some "raw")
        = .tooLarge 3 :=
  ⟨(C8_resolution_and_raw_ceiling envW "B1" "Rainfall" none none (some "auto") 3
      (by decide) (by decide) (by decide)).1 rfl (by decide),
    (C8_resolution_and_raw_ceiling envW2 "B1" "Rainfall" none none (some "auto") 3
      (by decide) (by decide) (by decide)).2.1 rfl (by decide),
    (C8_resolution_and_raw_ceiling envW3 "B1" "Rainfall" none none (some "raw") 3
      (by decide) (by decide) (by decide)).2.2 (by decide) (by decide)⟩

/-- `flush_batch` emits only upsert effects, never an invalidation. -/
theorem flushEffects_no_invalidation (env : IngestEnv) (rows : List InsertRow) :
    (flushEffects env rows).all (fun e => !e.isInvalidation) = true := by
  by_cases h1 : rows.isEmpty
  · simp [flushEffects, h1]
  · by_cases h2 : env.sqlOk
    · simp [flushEffects, h1, h2, IngestEffect.isInvalidation]
    · simp [flushEffects, h1, h2, List.all_map, IngestEffect.isInvalidation]

/-- A single row-loop iteration emits only upsert effects. -/
theorem processRow_no_invalidation (env : IngestEnv) (bs : Nat) (st : IngestState)
    (raw : List (String × String)) :
    ((processRow env bs st raw).2).all (fun e => !e.isInvalidation) = true := by
  simp only [processRow]
  repeat' split
  all_goals first
    | rfl
    | exact flushEffects_no_invalidation env _

/-- The row fold preserves "no invalidation effect emitted". -/
theorem ingestFold_no_invalidation (env : IngestEnv) (bs : Nat) :
    ∀ (rows : List (List (String × String))) (st : IngestState)
      (effs : List IngestEffect),
      effs.all (fun e => !e.isInvalidation) = true →
      ((rows.foldl (ingestStep env bs) (st, effs)).2).all
        (fun e => !e.isInvalidation) = true := by
  intro rows
  induction rows with
  | nil => intro st effs h; simpa using h
  | cons r rs ih =>
    intro st effs h
    simp only [List.foldl_cons]
    rw [show ingestStep env bs (st, effs) r
        = ((processRow env bs st r).1, effs ++ (processRow env bs st r).2) from rfl]
    apply ih
    rw [List.all_append, h, processRow_no_invalidation]
    rfl

/-- C4 (amended): the CSV ingestion command performs NO cache invalidation
on its write path — every effect of any run of `Command.handle` is a batch
or per-row upsert, and no call to `invalidate_timeseries_for_basin` or
`invalidate_upstream_for_impacted_downstream` ever occurs (the command never
references cache_utils); stale cache entries are removed only by TTL expiry.
The original claim is refuted by `C4_counterexample`. -/
theorem C4_no_invalidation_on_write_path
    (env : IngestEnv) (rows : List (List (String × String)))
    (batchSize : Nat) (initMap : List (String × Nat)) (initPk : Nat) :
    (ingestRun env rows batchSize initMap initPk).all
      (fun e => !e.isInvalidation) = true := by
  unfold ingestRun
  rw [List.all_append]
  rw [ingestFold_no_invalidation env batchSize rows _ [] rfl]
  rw [flushEffects_no_invalidation env _]
  rfl

end DynamicMaps
